import Mathlib

/-!
Verification of the memcached binary-protocol / TAP client library
(`src/include/memcached_tap_client.hpp`).

Buffers (`std::string`) are modelled as `List Nat` of byte values; machine
integers are `Nat` with explicit `% 2^w` truncation at the points where the
C++ code truncates (parameter passing into narrower member fields, and
serialization of each field at its wire width).

The repository contains only the header: the bodies of `to_wire`,
`is_msg_complete`, `from_wire` and the from-buffer constructors live in a
.cpp file that is not part of the repository snapshot.  Those bodies are
modelled from the specification (each such definition's doc comment says
so); everything else (field layouts, inline constructors, the 64-bit
byte-order conversion, which virtuals each class overrides) is taken
directly from the header.
-/

namespace Memcached

/-- Big-endian (network order) encoding of a value as 2 bytes, truncating to
16 bits exactly as storing into a `uint16_t` wire field does. -/
def be16 (v : Nat) : List Nat := [v / 256 % 256, v % 256]

/-- Big-endian encoding of a value as 4 bytes (truncates to 32 bits). -/
def be32 (v : Nat) : List Nat :=
  [v / 16777216 % 256, v / 65536 % 256, v / 256 % 256, v % 256]

/-- Big-endian encoding of a value as 8 bytes (truncates to 64 bits). -/
def be64 (v : Nat) : List Nat :=
  [v / 72057594037927936 % 256, v / 281474976710656 % 256,
   v / 1099511627776 % 256, v / 4294967296 % 256,
   v / 16777216 % 256, v / 65536 % 256, v / 256 % 256, v % 256]

namespace Utils

/-- The platform `htonl` on a little-endian host: a 32-bit byte swap.  The
header's 64-bit conversion is compiled on the `BOOST_LITTLE_ENDIAN` path, so
`htonl` reverses the four bytes of its 32-bit argument. -/
def htonl (v : Nat) : Nat :=
  v % 256 * 16777216 + v / 256 % 256 * 65536 + v / 65536 % 256 * 256 + v / 16777216 % 256

/-- `Utils::host_to_network(uint64_t)` on the little-endian path, from the
header: `low = htonl((uint32_t)(v >> 32)); high = htonl((uint32_t)(v &
0xFFFFFFFF)); return low | (high << 32);`.  Since `low < 2^32` the bitwise
or is addition. -/
def host_to_network64 (v : Nat) : Nat :=
  let low := htonl (v / 4294967296 % 4294967296)
  let high := htonl (v % 4294967296)
  low + high * 4294967296

/-- `Utils::network_to_host(uint64_t)` from the header: defined as
`host_to_network(v)` (the transform is self-inverse). -/
def network_to_host64 (v : Nat) : Nat := host_to_network64 v

end Utils

namespace OpCode

def GET : Nat := 0x00
def SET : Nat := 0x01
def ADD : Nat := 0x02
def REPLACE : Nat := 0x03
def DELETE : Nat := 0x04
def QUIT : Nat := 0x07
def VERSION : Nat := 0x0b
def GETK : Nat := 0x0c
def TAP_CONNECT : Nat := 0x40
def TAP_MUTATE : Nat := 0x41
def SET_VBUCKET : Nat := 0x3d

end OpCode

/-! Readers for the fixed 24-byte `MsgHdr` at the front of a raw buffer
(the `HDR_GET` macro plus `MsgHdr` layout from the header file); multi-byte
fields are converted from network order, i.e. assembled big-endian. -/

/-- `MsgHdr.magic` of a raw buffer. -/
def hdr_magic (b : List Nat) : Nat := b.getD 0 0

/-- `MsgHdr.op_code` of a raw buffer. -/
def hdr_op_code (b : List Nat) : Nat := b.getD 1 0

/-- `MsgHdr.key_length` (2 bytes, network order). -/
def hdr_key_length (b : List Nat) : Nat := b.getD 2 0 * 256 + b.getD 3 0

/-- `MsgHdr.extra_length` (1 byte). -/
def hdr_extra_length (b : List Nat) : Nat := b.getD 4 0

/-- `MsgHdr.vbucket_or_status` (2 bytes, network order). -/
def hdr_vbucket_or_status (b : List Nat) : Nat := b.getD 6 0 * 256 + b.getD 7 0

/-- `MsgHdr.body_length` (4 bytes, network order). -/
def hdr_body_length (b : List Nat) : Nat :=
  ((b.getD 8 0 * 256 + b.getD 9 0) * 256 + b.getD 10 0) * 256 + b.getD 11 0

/-- `MsgHdr.opaque` (4 bytes, network order). -/
def hdr_opq (b : List Nat) : Nat :=
  ((b.getD 12 0 * 256 + b.getD 13 0) * 256 + b.getD 14 0) * 256 + b.getD 15 0

/-- `MsgHdr.cas` (8 bytes, network order). -/
def hdr_cas (b : List Nat) : Nat :=
  ((((((b.getD 16 0 * 256 + b.getD 17 0) * 256 + b.getD 18 0) * 256 + b.getD 19 0) * 256
      + b.getD 20 0) * 256 + b.getD 21 0) * 256 + b.getD 22 0) * 256 + b.getD 23 0

/-- Key segment of a raw buffer: the `key_length` bytes following the header
and the `extra_length`-byte extra segment (spec wire layout, used by the
from-buffer constructors). -/
def msg_key (b : List Nat) : List Nat :=
  (b.drop (24 + hdr_extra_length b)).take (hdr_key_length b)

/-- Value segment of a raw buffer: the `body_length - extra_length -
key_length` bytes after the key segment. -/
def msg_value (b : List Nat) : List Nat :=
  (b.drop (24 + hdr_extra_length b + hdr_key_length b)).take
    (hdr_body_length b - hdr_extra_length b - hdr_key_length b)

/-- A 4-byte network-order integer read from the extra segment at byte
offset `off` (offset 24 + off in the whole buffer). -/
def extra_u32 (b : List Nat) (off : Nat) : Nat :=
  ((b.getD (24 + off) 0 * 256 + b.getD (25 + off) 0) * 256 + b.getD (26 + off) 0) * 256
    + b.getD (27 + off) 0

/-- The concrete message kinds of the library, as a closed sum.  Each
constructor's fields are exactly the member fields the C++ class stores
(`BaseMessage`: op_code, key, opaque, cas; `BaseReq` adds vbucket;
`BaseRsp` adds status; concrete classes add their payload members).
All status-only responses (`DeleteRsp`, `SetAddReplaceRsp` and the generic
status response) share the `statusRsp` shape, since they store exactly the
`BaseRsp` fields.  `setReq` covers `SetReq`/`AddReq`/`ReplaceReq`
(= `SetAddReplaceReq` with the op_code fixed by the subclass).
`setVBucketReq` is `SetVBucketReq` (op SET_VBUCKET, empty key, opaque 0,
cas 0 per its inline constructor, plus its `VBucketStatus` member). -/
inductive Msg where
  | getReq (op : Nat) (key : List Nat) (vb opq c : Nat)
  | getRsp (op : Nat) (status opq c : Nat) (value : List Nat) (flags : Nat) (key : List Nat)
  | deleteReq (key : List Nat) (vb opq c : Nat)
  | setReq (op : Nat) (key : List Nat) (vb : Nat) (value : List Nat) (o c flags expiry : Nat)
  | statusRsp (op : Nat) (key : List Nat) (status opq c : Nat)
  | versionReq (key : List Nat) (vb opq c : Nat)
  | versionRsp (status opq : Nat) (version : List Nat)
  | tapConnectReq (buckets : List Nat)
  | tapMutateReq (key : List Nat) (vb opq c : Nat) (value : List Nat) (flags expiry : Nat)
  | setVBucketReq (vb vbstatus : Nat)
  deriving DecidableEq

namespace Msg

/-- `BaseMessage::op_code()`. -/
def op_code : Msg → Nat
  | getReq op _ _ _ _ => op
  | getRsp op _ _ _ _ _ _ => op
  | deleteReq _ _ _ _ => OpCode.DELETE
  | setReq op _ _ _ _ _ _ _ => op
  | statusRsp op _ _ _ _ => op
  | versionReq _ _ _ _ => OpCode.VERSION
  | versionRsp _ _ _ => OpCode.VERSION
  | tapConnectReq _ => OpCode.TAP_CONNECT
  | tapMutateReq _ _ _ _ _ _ _ => OpCode.TAP_MUTATE
  | setVBucketReq _ _ => OpCode.SET_VBUCKET

/-- `BaseMessage::key()`. -/
def key : Msg → List Nat
  | getReq _ k _ _ _ => k
  | getRsp _ _ _ _ _ _ k => k
  | deleteReq k _ _ _ => k
  | setReq _ k _ _ _ _ _ _ => k
  | statusRsp _ k _ _ _ => k
  | versionReq k _ _ _ => k
  | versionRsp _ _ _ => []
  | tapConnectReq _ => []
  | tapMutateReq k _ _ _ _ _ _ => k
  | setVBucketReq _ _ => []

/-- The `BaseMessage` correlation-token accessor (named `opq` here because
its C++ name is a Lean keyword). -/
def opq : Msg → Nat
  | getReq _ _ _ o _ => o
  | getRsp _ _ o _ _ _ _ => o
  | deleteReq _ _ o _ => o
  | setReq _ _ _ _ o _ _ _ => o
  | statusRsp _ _ _ o _ => o
  | versionReq _ _ o _ => o
  | versionRsp _ o _ => o
  | tapConnectReq _ => 0
  | tapMutateReq _ _ o _ _ _ _ => o
  | setVBucketReq _ _ => 0

/-- `BaseMessage::cas()`. -/
def cas : Msg → Nat
  | getReq _ _ _ _ c => c
  | getRsp _ _ _ c _ _ _ => c
  | deleteReq _ _ _ c => c
  | setReq _ _ _ _ _ c _ _ => c
  | statusRsp _ _ _ _ c => c
  | versionReq _ _ _ c => c
  | versionRsp _ _ _ => 0
  | tapConnectReq _ => 0
  | tapMutateReq _ _ _ c _ _ _ => c
  | setVBucketReq _ _ => 0

/-- `is_request()`: true on every `BaseReq` subclass, false on `BaseRsp`. -/
def is_request : Msg → Bool
  | getReq _ _ _ _ _ => true
  | getRsp _ _ _ _ _ _ _ => false
  | deleteReq _ _ _ _ => true
  | setReq _ _ _ _ _ _ _ _ => true
  | statusRsp _ _ _ _ _ => false
  | versionReq _ _ _ _ => true
  | versionRsp _ _ _ => false
  | tapConnectReq _ => true
  | tapMutateReq _ _ _ _ _ _ _ => true
  | setVBucketReq _ _ => true

/-- `is_response()`: the negation of `is_request()` on every class. -/
def is_response (m : Msg) : Bool := !m.is_request

/-- `BaseReq::vbucket()`: the stored vbucket of a request (requests only;
responses have no such accessor, 0 here). -/
def vbucket : Msg → Nat
  | getReq _ _ v _ _ => v
  | deleteReq _ v _ _ => v
  | setReq _ _ v _ _ _ _ _ => v
  | versionReq _ v _ _ => v
  | tapMutateReq _ v _ _ _ _ _ => v
  | setVBucketReq v _ => v
  | _ => 0

/-- `BaseRsp::result_code()`: the stored status of a response (responses
only; requests have no such accessor, 0 here). -/
def result_code : Msg → Nat
  | getRsp _ s _ _ _ _ _ => s
  | statusRsp _ _ s _ _ => s
  | versionRsp s _ _ => s
  | _ => 0

/-- `generate_vbucket_or_status()`: `BaseReq` returns its vbucket,
`BaseRsp` its status. -/
def generate_vbucket_or_status (m : Msg) : Nat :=
  if m.is_request then m.vbucket else m.result_code

/-- The `value()` payload accessor where the class declares one
(`GetRsp`, `SetAddReplaceReq`, `TapMutateReq`); `[]` elsewhere. -/
def value : Msg → List Nat
  | getRsp _ _ _ _ v _ _ => v
  | setReq _ _ _ v _ _ _ _ => v
  | tapMutateReq _ _ _ _ v _ _ => v
  | _ => []

/-- The `flags()` payload accessor where the class declares one; 0
elsewhere. -/
def flags : Msg → Nat
  | getRsp _ _ _ _ _ f _ => f
  | setReq _ _ _ _ _ _ f _ => f
  | tapMutateReq _ _ _ _ _ f _ => f
  | _ => 0

/-- The `expiry()` payload accessor where the class declares one; 0
elsewhere. -/
def expiry : Msg → Nat
  | setReq _ _ _ _ _ _ _ e => e
  | tapMutateReq _ _ _ _ _ _ e => e
  | _ => 0

/-- Modelled from the spec: `generate_extra()` per concrete class (the
bodies are in the missing .cpp; the header shows which classes declare an
override, and §4.5 gives each extra segment).  `GetRsp`: 4-byte flags.
`SetAddReplaceReq`: 4-byte flags then 4-byte expiry.  `TapConnectReq`:
a 4-byte TAP connect flag word (the explicit-vbucket-list bit, modelled as
0x04, set exactly when the list is non-empty).  `TapMutateReq` declares no
override in the header, so it inherits the empty default. -/
def generate_extra : Msg → List Nat
  | getRsp _ _ _ _ _ f _ => be32 f
  | setReq _ _ _ _ _ _ f e => be32 f ++ be32 e
  | tapConnectReq bs => be32 (if bs.isEmpty then 0 else 4)
  | setVBucketReq _ s => [s]
  | _ => []

/-- Modelled from the spec: `generate_value()` per concrete class.
`GetRsp` and `SetAddReplaceReq` emit their stored value bytes;
`VersionRsp` emits the version string; `TapConnectReq` emits each vbucket
id of its list as a 2-byte network-order integer, in list order (so an
empty list contributes no value segment).  `TapMutateReq` declares no
override in the header, so it inherits the empty default. -/
def generate_value : Msg → List Nat
  | getRsp _ _ _ _ v _ _ => v
  | setReq _ _ _ v _ _ _ _ => v
  | versionRsp _ _ ver => ver
  | tapConnectReq bs => bs.flatMap be16
  | _ => []

end Msg

/-- Modelled from the spec: the byte sequence `BaseMessage::to_wire()`
produces, given the direction, header fields and the extra/key/value
segments — the 24-byte header (magic 0x80 for a request and 0x81 for a
response, op_code, key_length, extra_length, data_type 0,
vbucket_or_status, `body_length = extra_length + key_length + value
length`, opaque, cas, every multi-byte field in network order) followed by
the extra segment, the key bytes and the value segment. -/
def wire_bytes (request : Bool) (op : Nat) (key : List Nat) (vbs opq c : Nat)
    (extra value : List Nat) : List Nat :=
  (([(if request then 0x80 else 0x81), op] ++ be16 key.length
      ++ [extra.length % 256, 0] ++ be16 vbs
      ++ be32 (extra.length + key.length + value.length)
      ++ be32 opq ++ be64 c)
    ++ (extra ++ (key ++ value)))

/-- `BaseMessage::to_wire()` for a concrete message: the serialization
skeleton applied to the message's own accessors and generators. -/
def Msg.to_wire (m : Msg) : List Nat :=
  wire_bytes m.is_request m.op_code m.key m.generate_vbucket_or_status m.opq m.cas
    m.generate_extra m.generate_value

/-! From-buffer reconstruction (the `T(const std::string& msg)`
constructors).  Their bodies are in the missing .cpp; modelled from the
spec, §4.4: extract op_code/key/opaque/cas/vbucket-or-status from the
header, and the concrete subtype additionally extracts its own extra/value
fields at type-specific offsets. -/

/-- Modelled from the spec: `GetReq(const std::string&)` — the `BaseReq`
fields read from the buffer. -/
def GetReq.from_msg (b : List Nat) : Msg :=
  .getReq (hdr_op_code b) (msg_key b) (hdr_vbucket_or_status b) (hdr_opq b) (hdr_cas b)

/-- Modelled from the spec: `GetRsp(const std::string&)` — `BaseRsp` fields
plus the 4-byte flags from the extra segment and the value segment. -/
def GetRsp.from_msg (b : List Nat) : Msg :=
  .getRsp (hdr_op_code b) (hdr_vbucket_or_status b) (hdr_opq b) (hdr_cas b)
    (msg_value b) (extra_u32 b 0) (msg_key b)

/-- Modelled from the spec: `DeleteReq(const std::string&)`. -/
def DeleteReq.from_msg (b : List Nat) : Msg :=
  .deleteReq (msg_key b) (hdr_vbucket_or_status b) (hdr_opq b) (hdr_cas b)

/-- Modelled from the spec: `SetAddReplaceReq(const std::string&)` —
`BaseReq` fields plus 4-byte flags and 4-byte expiry from the extra
segment, and the value segment. -/
def SetAddReplaceReq.from_msg (b : List Nat) : Msg :=
  .setReq (hdr_op_code b) (msg_key b) (hdr_vbucket_or_status b) (msg_value b) (hdr_opq b)
    (hdr_cas b) (extra_u32 b 0) (extra_u32 b 4)

/-- Modelled from the spec: `BaseRsp(const std::string&)` — the generic
status-only response reconstruction (used directly for `DeleteRsp`,
`SetAddReplaceRsp` and every other status-only response). -/
def BaseRsp.from_msg (b : List Nat) : Msg :=
  .statusRsp (hdr_op_code b) (msg_key b) (hdr_vbucket_or_status b) (hdr_opq b) (hdr_cas b)

/-- Modelled from the spec: `VersionReq(const std::string&)`. -/
def VersionReq.from_msg (b : List Nat) : Msg :=
  .versionReq (msg_key b) (hdr_vbucket_or_status b) (hdr_opq b) (hdr_cas b)

/-- Modelled from the spec: `TapMutateReq(const std::string&)` — `BaseReq`
fields, the value segment, and flags/expiry from the extra segment.  The
spec leaves the exact offsets of flags and expiry within the TAP extra
segment open; they are modelled at extra offsets 0 and 4 (no claim depends
on this choice). -/
def TapMutateReq.from_msg (b : List Nat) : Msg :=
  .tapMutateReq (msg_key b) (hdr_vbucket_or_status b) (hdr_opq b) (hdr_cas b)
    (msg_value b) (extra_u32 b 0) (extra_u32 b 4)

/-- Modelled from the spec: `is_msg_complete` (§4.6) — reads only the fixed
header prefix (at least 24 bytes must be present; otherwise incomplete),
determines the direction from the magic byte, extracts the op_code, and
reports complete exactly when the buffer holds at least `24 + body_length`
bytes (body_length converted from network order).  `none` models the false
return; `some (request, body_length, op_code)` the true return with the
three out-parameters. -/
def is_msg_complete (msg : List Nat) : Option (Bool × Nat × Nat) :=
  if msg.length < 24 then
    none
  else if 24 + hdr_body_length msg ≤ msg.length then
    some (hdr_magic msg == 0x80, hdr_body_length msg, hdr_op_code msg)
  else
    none

/-- Modelled from the spec: the factory dispatch table of `from_wire`
(§4.6) — on `(direction, op_code)`, covering exactly the op_codes of §4.5
for each direction: requests GET/GETK, DELETE, SET/ADD/REPLACE, VERSION
and TAP_MUTATE; responses GET/GETK (with payload) and the generic
status-only response for DELETE, SET, ADD, REPLACE, VERSION and
SET_VBUCKET.  Any other pair has no registered concrete type. -/
def dispatch (request : Bool) (op : Nat) (b : List Nat) : Option Msg :=
  if request then
    if op = OpCode.GET ∨ op = OpCode.GETK then some (GetReq.from_msg b)
    else if op = OpCode.DELETE then some (DeleteReq.from_msg b)
    else if op = OpCode.SET ∨ op = OpCode.ADD ∨ op = OpCode.REPLACE then
      some (SetAddReplaceReq.from_msg b)
    else if op = OpCode.VERSION then some (VersionReq.from_msg b)
    else if op = OpCode.TAP_MUTATE then some (TapMutateReq.from_msg b)
    else none
  else
    if op = OpCode.GET ∨ op = OpCode.GETK then some (GetRsp.from_msg b)
    else if op = OpCode.SET ∨ op = OpCode.ADD ∨ op = OpCode.REPLACE ∨ op = OpCode.DELETE
            ∨ op = OpCode.VERSION ∨ op = OpCode.SET_VBUCKET then
      some (BaseRsp.from_msg b)
    else none

/-- Outcome of `from_wire`: no complete message yet; a complete message
whose (direction, op_code) has no registered concrete type (reported to
the caller as an unrecognized-message error); or a parsed message. -/
inductive FromWireResult where
  | not_found
  | unrecognized
  | found (m : Msg)
  deriving DecidableEq

/-- Modelled from the spec: `from_wire` (§4.6) — applies `is_msg_complete`;
if incomplete, returns not-found and leaves the buffer untouched.  If
complete, dispatches on `(is_request, op_code)`; with no registered
concrete type it reports an unrecognized-message error and does not mutate
the buffer; otherwise it removes exactly the message's `24 + body_length`
bytes from the front of the buffer and returns the new message.  The pair
is (result, buffer afterwards). -/
def from_wire (binary : List Nat) : FromWireResult × List Nat :=
  match is_msg_complete binary with
  | none => (.not_found, binary)
  | some (request, body_length, op) =>
    match dispatch request op binary with
    | none => (.unrecognized, binary)
    | some m => (.found m, binary.drop (24 + body_length))

/-! Programmatic constructors, from the header (inline).  A parameter of a
narrower C++ type truncates its argument at the call boundary; that
truncation is written explicitly here. -/

/-- `GetReq(std::string key, uint32_t opaque)` from the header:
`BaseReq(OpCode::GET, key, 0, opaque, 0)`. -/
def GetReq.of_key_opq (key : List Nat) (o : Nat) : Msg :=
  .getReq OpCode.GET key 0 (o % 4294967296) 0

/-- `DeleteReq(std::string key, uint32_t opaque)` from the header:
`BaseReq(OpCode::DELETE, key, 0, opaque, 0)`. -/
def DeleteReq.of_key_opq (key : List Nat) (o : Nat) : Msg :=
  .deleteReq key 0 (o % 4294967296) 0

/-- `SetReq(key, vbucket, value, flags, expiry)` from the header:
`SetAddReplaceReq(OpCode::SET, key, vbucket, value, 0, flags, expiry)`. -/
def SetReq.of_fields (key : List Nat) (vb : Nat) (value : List Nat) (f e : Nat) : Msg :=
  .setReq OpCode.SET key (vb % 65536) value 0 0 (f % 4294967296) (e % 4294967296)

/-- `AddReq(key, vbucket, value, flags, expiry)` from the header:
`SetAddReplaceReq(OpCode::ADD, key, vbucket, value, 0, flags, expiry)`. -/
def AddReq.of_fields (key : List Nat) (vb : Nat) (value : List Nat) (f e : Nat) : Msg :=
  .setReq OpCode.ADD key (vb % 65536) value 0 0 (f % 4294967296) (e % 4294967296)

/-- `ReplaceReq(key, vbucket, value, cas, flags, expiry)` from the header:
`SetAddReplaceReq(OpCode::REPLACE, key, vbucket, value, cas, flags,
expiry)`. -/
def ReplaceReq.of_fields (key : List Nat) (vb : Nat) (value : List Nat) (c f e : Nat) : Msg :=
  .setReq OpCode.REPLACE key (vb % 65536) value 0 (c % 18446744073709551616)
    (f % 4294967296) (e % 4294967296)

/-- `DeleteRsp(uint8_t status, uint32_t opaque)` from the header:
`BaseRsp(OpCode::DELETE, "", status, opaque, 0)` — note the status
parameter is only 8 bits wide. -/
def DeleteRsp.of_status_opq (status o : Nat) : Msg :=
  .statusRsp OpCode.DELETE [] (status % 256) (o % 4294967296) 0

/-- `SetAddReplaceRsp(uint8_t command, uint8_t status, uint32_t opaque,
uint64_t cas = 0)` from the header: `BaseRsp(command, "", status, opaque,
cas)` — note the status parameter is only 8 bits wide. -/
def SetAddReplaceRsp.of_fields (command status o c : Nat) : Msg :=
  .statusRsp (command % 256) [] (status % 256) (o % 4294967296) (c % 18446744073709551616)

/-- `VersionRsp(uint16_t status, uint32_t opaque, const std::string&
version)` (body in the missing .cpp).  Modelled from the spec: a
status-only response with op_code VERSION, empty key, cas 0, whose value
segment is the version string. -/
def VersionRsp.of_fields (status o : Nat) (version : List Nat) : Msg :=
  .versionRsp (status % 65536) (o % 4294967296) version

/-- `TapConnectReq(const VBucketList& buckets)` (body in the missing .cpp).
Modelled from the spec: a request with op_code TAP_CONNECT, empty key,
vbucket 0, opaque 0, cas 0, storing the vbucket list (each id a
`uint16_t`). -/
def TapConnectReq.of_buckets (buckets : List Nat) : Msg :=
  .tapConnectReq (buckets.map (· % 65536))

/-- `SetVBucketReq(uint16_t vbucket, VBucketStatus status)` from the
header: `BaseReq(OpCode::SET_VBUCKET, "", vbucket, 0, 0)` with the status
stored; its `generate_extra` (body in the missing .cpp) is modelled from
spec §4.5 as the single status byte. -/
def SetVBucketReq.of_fields (vb status : Nat) : Msg :=
  .setVBucketReq (vb % 65536) status

/-- Modelled from the spec: `GetReq::response_needs_key()` — true exactly
when the request's op_code is GETK rather than plain GET (only the "with
key" variant's response echoes the key). -/
def Msg.response_needs_key : Msg → Bool
  | .getReq op _ _ _ _ => op == OpCode.GETK
  | _ => false

/-- Well-formedness of a message: every stored field fits the width of its
C++ member (`uint8_t` op_code, `uint16_t` vbucket/status and `key_length`,
`uint32_t` opaque/flags/expiry, `uint64_t` cas), the op_code is one the
class can actually hold (fixed by the programmatic constructors, or
guaranteed by the factory dispatch for buffer-built instances), and the
serialized body fits the 32-bit `body_length` field.  Every message the
library itself builds satisfies this. -/
def Msg.Wf : Msg → Prop
  | .getReq op key vb o c =>
      (op = OpCode.GET ∨ op = OpCode.GETK) ∧ key.length < 65536 ∧ vb < 65536
        ∧ o < 4294967296 ∧ c < 18446744073709551616
  | .getRsp op s o c value f key =>
      (op = OpCode.GET ∨ op = OpCode.GETK) ∧ s < 65536 ∧ o < 4294967296
        ∧ c < 18446744073709551616 ∧ key.length < 65536 ∧ f < 4294967296
        ∧ 4 + key.length + value.length < 4294967296
  | .deleteReq key vb o c =>
      key.length < 65536 ∧ vb < 65536 ∧ o < 4294967296 ∧ c < 18446744073709551616
  | .setReq op key vb value o c f e =>
      (op = OpCode.SET ∨ op = OpCode.ADD ∨ op = OpCode.REPLACE) ∧ key.length < 65536
        ∧ vb < 65536 ∧ o < 4294967296 ∧ c < 18446744073709551616 ∧ f < 4294967296
        ∧ e < 4294967296 ∧ 8 + key.length + value.length < 4294967296
  | .statusRsp op key s o c =>
      (op = OpCode.SET ∨ op = OpCode.ADD ∨ op = OpCode.REPLACE ∨ op = OpCode.DELETE
          ∨ op = OpCode.VERSION ∨ op = OpCode.SET_VBUCKET)
        ∧ key.length < 65536 ∧ s < 65536 ∧ o < 4294967296 ∧ c < 18446744073709551616
  | .versionReq key vb o c =>
      key.length < 65536 ∧ vb < 65536 ∧ o < 4294967296 ∧ c < 18446744073709551616
  | .versionRsp s o version =>
      s < 65536 ∧ o < 4294967296 ∧ version.length < 4294967296
  | .tapConnectReq buckets =>
      (∀ v ∈ buckets, v < 65536) ∧ 4 + 2 * buckets.length < 4294967296
  | .tapMutateReq key vb o c _value _f _e =>
      key.length < 65536 ∧ vb < 65536 ∧ o < 4294967296 ∧ c < 18446744073709551616
  | .setVBucketReq vb s =>
      vb < 65536 ∧ (s = 1 ∨ s = 2 ∨ s = 3 ∨ s = 4)

instance (m : Msg) : Decidable m.Wf := by
  cases m <;> (unfold Msg.Wf; infer_instance)

/-! Generic facts about the serialized form `wire_bytes r op key vbs o c
extra value`: reading each header field back, extracting the segments, and
the framing arithmetic. -/

theorem length_flatMap_be16 (l : List Nat) : (l.flatMap be16).length = 2 * l.length := by
  induction l with
  | nil => rfl
  | cons x xs ih => simp [List.flatMap_cons, be16, ih]; omega

theorem wire_length (r : Bool) (op : Nat) (key : List Nat) (vbs o c : Nat)
    (extra value : List Nat) :
    (wire_bytes r op key vbs o c extra value).length
      = 24 + (extra.length + (key.length + value.length)) := by
  simp [wire_bytes, be16, be32, be64]; omega

theorem wire_drop (r : Bool) (op : Nat) (key : List Nat) (vbs o c : Nat)
    (extra value : List Nat) (n : Nat) :
    (wire_bytes r op key vbs o c extra value).drop (24 + n)
      = (extra ++ (key ++ value)).drop n := by
  have h24 : ([(if r then 0x80 else 0x81), op] ++ be16 key.length ++ [extra.length % 256, 0]
      ++ be16 vbs ++ be32 (extra.length + key.length + value.length) ++ be32 o
      ++ be64 c).length = 24 := by
    simp [be16, be32, be64]
  unfold wire_bytes
  rw [← h24, List.drop_append]

theorem hdr_magic_wire (r : Bool) (op : Nat) (key : List Nat) (vbs o c : Nat)
    (extra value : List Nat) :
    hdr_magic (wire_bytes r op key vbs o c extra value) = if r then 0x80 else 0x81 := rfl

theorem hdr_op_code_wire (r : Bool) (op : Nat) (key : List Nat) (vbs o c : Nat)
    (extra value : List Nat) :
    hdr_op_code (wire_bytes r op key vbs o c extra value) = op := rfl

theorem hdr_key_length_wire (r : Bool) (op : Nat) (key : List Nat) (vbs o c : Nat)
    (extra value : List Nat) (h : key.length < 65536) :
    hdr_key_length (wire_bytes r op key vbs o c extra value) = key.length := by
  have he : hdr_key_length (wire_bytes r op key vbs o c extra value)
      = key.length / 256 % 256 * 256 + key.length % 256 := rfl
  omega

theorem hdr_extra_length_wire (r : Bool) (op : Nat) (key : List Nat) (vbs o c : Nat)
    (extra value : List Nat) (h : extra.length < 256) :
    hdr_extra_length (wire_bytes r op key vbs o c extra value) = extra.length := by
  have he : hdr_extra_length (wire_bytes r op key vbs o c extra value)
      = extra.length % 256 := rfl
  omega

theorem hdr_vbucket_or_status_wire (r : Bool) (op : Nat) (key : List Nat) (vbs o c : Nat)
    (extra value : List Nat) (h : vbs < 65536) :
    hdr_vbucket_or_status (wire_bytes r op key vbs o c extra value) = vbs := by
  have he : hdr_vbucket_or_status (wire_bytes r op key vbs o c extra value)
      = vbs / 256 % 256 * 256 + vbs % 256 := rfl
  omega

theorem hdr_body_length_wire (r : Bool) (op : Nat) (key : List Nat) (vbs o c : Nat)
    (extra value : List Nat) (h : extra.length + key.length + value.length < 4294967296) :
    hdr_body_length (wire_bytes r op key vbs o c extra value)
      = extra.length + key.length + value.length := by
  have he : hdr_body_length (wire_bytes r op key vbs o c extra value)
      = (((extra.length + key.length + value.length) / 16777216 % 256 * 256
          + (extra.length + key.length + value.length) / 65536 % 256) * 256
          + (extra.length + key.length + value.length) / 256 % 256) * 256
          + (extra.length + key.length + value.length) % 256 := rfl
  omega

theorem hdr_opq_wire (r : Bool) (op : Nat) (key : List Nat) (vbs o c : Nat)
    (extra value : List Nat) (h : o < 4294967296) :
    hdr_opq (wire_bytes r op key vbs o c extra value) = o := by
  have he : hdr_opq (wire_bytes r op key vbs o c extra value)
      = ((o / 16777216 % 256 * 256 + o / 65536 % 256) * 256 + o / 256 % 256) * 256
          + o % 256 := rfl
  omega

set_option maxHeartbeats 1600000 in
theorem hdr_cas_wire (r : Bool) (op : Nat) (key : List Nat) (vbs o c : Nat)
    (extra value : List Nat) (h : c < 18446744073709551616) :
    hdr_cas (wire_bytes r op key vbs o c extra value) = c := by
  have he : hdr_cas (wire_bytes r op key vbs o c extra value)
      = ((((((c / 72057594037927936 % 256 * 256 + c / 281474976710656 % 256) * 256
          + c / 1099511627776 % 256) * 256 + c / 4294967296 % 256) * 256
          + c / 16777216 % 256) * 256 + c / 65536 % 256) * 256 + c / 256 % 256) * 256
          + c % 256 := rfl
  omega

theorem msg_key_wire (r : Bool) (op : Nat) (key : List Nat) (vbs o c : Nat)
    (extra value : List Nat) (hk : key.length < 65536) (he : extra.length < 256) :
    msg_key (wire_bytes r op key vbs o c extra value) = key := by
  unfold msg_key
  rw [hdr_extra_length_wire r op key vbs o c extra value he,
    hdr_key_length_wire r op key vbs o c extra value hk,
    wire_drop, List.drop_left, List.take_left]

theorem msg_value_wire (r : Bool) (op : Nat) (key : List Nat) (vbs o c : Nat)
    (extra value : List Nat) (hk : key.length < 65536) (he : extra.length < 256)
    (hb : extra.length + key.length + value.length < 4294967296) :
    msg_value (wire_bytes r op key vbs o c extra value) = value := by
  unfold msg_value
  rw [hdr_extra_length_wire r op key vbs o c extra value he,
    hdr_key_length_wire r op key vbs o c extra value hk,
    hdr_body_length_wire r op key vbs o c extra value hb,
    Nat.add_assoc 24 extra.length key.length, wire_drop, ← List.append_assoc,
    ← List.length_append, List.drop_left]
  have hv : (extra ++ key).length + value.length - extra.length - key.length
      = value.length := by simp; omega
  rw [hv, List.take_length]

theorem wire_drop_all (r : Bool) (op : Nat) (key : List Nat) (vbs o c : Nat)
    (extra value : List Nat) :
    (wire_bytes r op key vbs o c extra value).drop
      (24 + (extra.length + key.length + value.length)) = [] := by
  rw [wire_drop]
  have h : extra.length + key.length + value.length
      = (extra ++ (key ++ value)).length := by simp; omega
  rw [h, List.drop_length]

theorem is_msg_complete_wire (r : Bool) (op : Nat) (key : List Nat) (vbs o c : Nat)
    (extra value : List Nat)
    (hb : extra.length + key.length + value.length < 4294967296) :
    is_msg_complete (wire_bytes r op key vbs o c extra value)
      = some (r, extra.length + key.length + value.length, op) := by
  unfold is_msg_complete
  rw [hdr_body_length_wire r op key vbs o c extra value hb, wire_length r op key vbs o c,
    hdr_magic_wire r op key vbs o c, hdr_op_code_wire r op key vbs o c]
  rw [if_neg (by omega), if_pos (by omega)]
  cases r <;> rfl

theorem extra_u32_wire_f (r : Bool) (op : Nat) (key : List Nat) (vbs o c f : Nat)
    (value : List Nat) (hf : f < 4294967296) :
    extra_u32 (wire_bytes r op key vbs o c (be32 f) value) 0 = f := by
  have he : extra_u32 (wire_bytes r op key vbs o c (be32 f) value) 0
      = ((f / 16777216 % 256 * 256 + f / 65536 % 256) * 256 + f / 256 % 256) * 256
          + f % 256 := rfl
  omega

theorem extra_u32_wire_fe0 (r : Bool) (op : Nat) (key : List Nat) (vbs o c f e : Nat)
    (value : List Nat) (hf : f < 4294967296) :
    extra_u32 (wire_bytes r op key vbs o c (be32 f ++ be32 e) value) 0 = f := by
  have he : extra_u32 (wire_bytes r op key vbs o c (be32 f ++ be32 e) value) 0
      = ((f / 16777216 % 256 * 256 + f / 65536 % 256) * 256 + f / 256 % 256) * 256
          + f % 256 := rfl
  omega

theorem extra_u32_wire_fe4 (r : Bool) (op : Nat) (key : List Nat) (vbs o c f e : Nat)
    (value : List Nat) (he : e < 4294967296) :
    extra_u32 (wire_bytes r op key vbs o c (be32 f ++ be32 e) value) 4 = e := by
  have hr : extra_u32 (wire_bytes r op key vbs o c (be32 f ++ be32 e) value) 4
      = ((e / 16777216 % 256 * 256 + e / 65536 % 256) * 256 + e / 256 % 256) * 256
          + e % 256 := rfl
  omega

theorem from_wire_wire (r : Bool) (op : Nat) (key : List Nat) (vbs o c : Nat)
    (extra value : List Nat) (m : Msg)
    (hb : extra.length + key.length + value.length < 4294967296)
    (hd : dispatch r op (wire_bytes r op key vbs o c extra value) = some m) :
    from_wire (wire_bytes r op key vbs o c extra value) = (.found m, []) := by
  unfold from_wire
  rw [is_msg_complete_wire r op key vbs o c extra value hb]
  simp only [hd]
  rw [wire_drop_all]

/-! Round-trip lemmas: each concrete message kind, serialized and fed back
through `from_wire`, is reconstructed with the same stored fields (for
`versionRsp` as the generic status response, and for `tapMutateReq` with
an empty payload, since its `to_wire` emits no extra or value segment). -/

theorem rt_getReq (op : Nat) (key : List Nat) (vb o c : Nat)
    (h : (Msg.getReq op key vb o c).Wf) :
    from_wire (Msg.getReq op key vb o c).to_wire
      = (.found (.getReq op key vb o c), []) := by
  obtain ⟨hop, hk, hv, ho, hc⟩ := h
  have hW : (Msg.getReq op key vb o c).to_wire = wire_bytes true op key vb o c [] [] := rfl
  have hm : GetReq.from_msg (wire_bytes true op key vb o c [] [])
      = .getReq op key vb o c := by
    unfold GetReq.from_msg
    rw [hdr_op_code_wire, msg_key_wire true op key vb o c [] [] hk (by simp),
      hdr_vbucket_or_status_wire true op key vb o c [] [] hv,
      hdr_opq_wire true op key vb o c [] [] ho,
      hdr_cas_wire true op key vb o c [] [] hc]
  have hd : dispatch true op (wire_bytes true op key vb o c [] [])
      = some (.getReq op key vb o c) := by
    rw [← hm]; rcases hop with rfl | rfl <;> rfl
  rw [hW]
  exact from_wire_wire true op key vb o c [] [] _ (by simp; omega) hd

theorem rt_getRsp (op s o c : Nat) (v : List Nat) (f : Nat) (k : List Nat)
    (h : (Msg.getRsp op s o c v f k).Wf) :
    from_wire (Msg.getRsp op s o c v f k).to_wire
      = (.found (.getRsp op s o c v f k), []) := by
  obtain ⟨hop, hs, ho, hc, hk, hf, hbv⟩ := h
  have hW : (Msg.getRsp op s o c v f k).to_wire
      = wire_bytes false op k s o c (be32 f) v := rfl
  have hm : GetRsp.from_msg (wire_bytes false op k s o c (be32 f) v)
      = .getRsp op s o c v f k := by
    unfold GetRsp.from_msg
    rw [hdr_op_code_wire, msg_key_wire false op k s o c (be32 f) v hk (by simp [be32]),
      hdr_vbucket_or_status_wire false op k s o c (be32 f) v hs,
      hdr_opq_wire false op k s o c (be32 f) v ho,
      hdr_cas_wire false op k s o c (be32 f) v hc,
      msg_value_wire false op k s o c (be32 f) v hk (by simp [be32]) (by simp [be32]; omega),
      extra_u32_wire_f false op k s o c f v hf]
  have hd : dispatch false op (wire_bytes false op k s o c (be32 f) v)
      = some (.getRsp op s o c v f k) := by
    rw [← hm]; rcases hop with rfl | rfl <;> rfl
  rw [hW]
  exact from_wire_wire false op k s o c (be32 f) v _ (by simp [be32]; omega) hd

theorem rt_deleteReq (key : List Nat) (vb o c : Nat)
    (h : (Msg.deleteReq key vb o c).Wf) :
    from_wire (Msg.deleteReq key vb o c).to_wire
      = (.found (.deleteReq key vb o c), []) := by
  obtain ⟨hk, hv, ho, hc⟩ := h
  have hW : (Msg.deleteReq key vb o c).to_wire
      = wire_bytes true OpCode.DELETE key vb o c [] [] := rfl
  have hm : DeleteReq.from_msg (wire_bytes true OpCode.DELETE key vb o c [] [])
      = .deleteReq key vb o c := by
    unfold DeleteReq.from_msg
    rw [msg_key_wire true OpCode.DELETE key vb o c [] [] hk (by simp),
      hdr_vbucket_or_status_wire true OpCode.DELETE key vb o c [] [] hv,
      hdr_opq_wire true OpCode.DELETE key vb o c [] [] ho,
      hdr_cas_wire true OpCode.DELETE key vb o c [] [] hc]
  have hd : dispatch true OpCode.DELETE (wire_bytes true OpCode.DELETE key vb o c [] [])
      = some (.deleteReq key vb o c) := by
    rw [← hm]; rfl
  rw [hW]
  exact from_wire_wire true OpCode.DELETE key vb o c [] [] _ (by simp; omega) hd

theorem rt_setReq (op : Nat) (key : List Nat) (vb : Nat) (v : List Nat) (o c f e : Nat)
    (h : (Msg.setReq op key vb v o c f e).Wf) :
    from_wire (Msg.setReq op key vb v o c f e).to_wire
      = (.found (.setReq op key vb v o c f e), []) := by
  obtain ⟨hop, hk, hv, ho, hc, hf, hex, hbv⟩ := h
  have hW : (Msg.setReq op key vb v o c f e).to_wire
      = wire_bytes true op key vb o c (be32 f ++ be32 e) v := rfl
  have hm : SetAddReplaceReq.from_msg (wire_bytes true op key vb o c (be32 f ++ be32 e) v)
      = .setReq op key vb v o c f e := by
    unfold SetAddReplaceReq.from_msg
    rw [hdr_op_code_wire,
      msg_key_wire true op key vb o c (be32 f ++ be32 e) v hk (by simp [be32]),
      hdr_vbucket_or_status_wire true op key vb o c (be32 f ++ be32 e) v hv,
      hdr_opq_wire true op key vb o c (be32 f ++ be32 e) v ho,
      hdr_cas_wire true op key vb o c (be32 f ++ be32 e) v hc,
      msg_value_wire true op key vb o c (be32 f ++ be32 e) v hk (by simp [be32])
        (by simp [be32]; omega),
      extra_u32_wire_fe0 true op key vb o c f e v hf,
      extra_u32_wire_fe4 true op key vb o c f e v hex]
  have hd : dispatch true op (wire_bytes true op key vb o c (be32 f ++ be32 e) v)
      = some (.setReq op key vb v o c f e) := by
    rw [← hm]; rcases hop with rfl | rfl | rfl <;> rfl
  rw [hW]
  exact from_wire_wire true op key vb o c (be32 f ++ be32 e) v _ (by simp [be32]; omega) hd

theorem rt_statusRsp (op : Nat) (key : List Nat) (s o c : Nat)
    (h : (Msg.statusRsp op key s o c).Wf) :
    from_wire (Msg.statusRsp op key s o c).to_wire
      = (.found (.statusRsp op key s o c), []) := by
  obtain ⟨hop, hk, hs, ho, hc⟩ := h
  have hW : (Msg.statusRsp op key s o c).to_wire
      = wire_bytes false op key s o c [] [] := rfl
  have hm : BaseRsp.from_msg (wire_bytes false op key s o c [] [])
      = .statusRsp op key s o c := by
    unfold BaseRsp.from_msg
    rw [hdr_op_code_wire, msg_key_wire false op key s o c [] [] hk (by simp),
      hdr_vbucket_or_status_wire false op key s o c [] [] hs,
      hdr_opq_wire false op key s o c [] [] ho,
      hdr_cas_wire false op key s o c [] [] hc]
  have hd : dispatch false op (wire_bytes false op key s o c [] [])
      = some (.statusRsp op key s o c) := by
    rw [← hm]; rcases hop with rfl | rfl | rfl | rfl | rfl | rfl <;> rfl
  rw [hW]
  exact from_wire_wire false op key s o c [] [] _ (by simp; omega) hd

theorem rt_versionRsp (s o : Nat) (ver : List Nat)
    (h : (Msg.versionRsp s o ver).Wf) :
    from_wire (Msg.versionRsp s o ver).to_wire
      = (.found (.statusRsp OpCode.VERSION [] s o 0), []) := by
  obtain ⟨hs, ho, hver⟩ := h
  have hW : (Msg.versionRsp s o ver).to_wire
      = wire_bytes false OpCode.VERSION [] s o 0 [] ver := rfl
  have hm : BaseRsp.from_msg (wire_bytes false OpCode.VERSION [] s o 0 [] ver)
      = .statusRsp OpCode.VERSION [] s o 0 := by
    unfold BaseRsp.from_msg
    rw [hdr_op_code_wire, msg_key_wire false OpCode.VERSION [] s o 0 [] ver (by simp) (by simp),
      hdr_vbucket_or_status_wire false OpCode.VERSION [] s o 0 [] ver hs,
      hdr_opq_wire false OpCode.VERSION [] s o 0 [] ver ho,
      hdr_cas_wire false OpCode.VERSION [] s o 0 [] ver (by omega)]
  have hd : dispatch false OpCode.VERSION (wire_bytes false OpCode.VERSION [] s o 0 [] ver)
      = some (.statusRsp OpCode.VERSION [] s o 0) := by
    rw [← hm]; rfl
  rw [hW]
  exact from_wire_wire false OpCode.VERSION [] s o 0 [] ver _ (by simp; omega) hd

theorem rt_tapMutateReq (k : List Nat) (vb o c : Nat) (v : List Nat) (f e : Nat)
    (h : (Msg.tapMutateReq k vb o c v f e).Wf) :
    ∃ f2 e2, from_wire (Msg.tapMutateReq k vb o c v f e).to_wire
      = (.found (.tapMutateReq k vb o c [] f2 e2), []) := by
  obtain ⟨hk, hv, ho, hc⟩ := h
  have hW : (Msg.tapMutateReq k vb o c v f e).to_wire
      = wire_bytes true OpCode.TAP_MUTATE k vb o c [] [] := rfl
  refine ⟨extra_u32 (wire_bytes true OpCode.TAP_MUTATE k vb o c [] []) 0,
    extra_u32 (wire_bytes true OpCode.TAP_MUTATE k vb o c [] []) 4, ?_⟩
  have hm : TapMutateReq.from_msg (wire_bytes true OpCode.TAP_MUTATE k vb o c [] [])
      = .tapMutateReq k vb o c []
          (extra_u32 (wire_bytes true OpCode.TAP_MUTATE k vb o c [] []) 0)
          (extra_u32 (wire_bytes true OpCode.TAP_MUTATE k vb o c [] []) 4) := by
    unfold TapMutateReq.from_msg
    rw [msg_key_wire true OpCode.TAP_MUTATE k vb o c [] [] hk (by simp),
      hdr_vbucket_or_status_wire true OpCode.TAP_MUTATE k vb o c [] [] hv,
      hdr_opq_wire true OpCode.TAP_MUTATE k vb o c [] [] ho,
      hdr_cas_wire true OpCode.TAP_MUTATE k vb o c [] [] hc,
      msg_value_wire true OpCode.TAP_MUTATE k vb o c [] [] hk (by simp) (by simp; omega)]
  have hd : dispatch true OpCode.TAP_MUTATE (wire_bytes true OpCode.TAP_MUTATE k vb o c [] [])
      = some (.tapMutateReq k vb o c []
          (extra_u32 (wire_bytes true OpCode.TAP_MUTATE k vb o c [] []) 0)
          (extra_u32 (wire_bytes true OpCode.TAP_MUTATE k vb o c [] []) 4)) := by
    rw [← hm]; rfl
  rw [hW]
  exact from_wire_wire true OpCode.TAP_MUTATE k vb o c [] [] _ (by simp; omega) hd

theorem c2_generic (r : Bool) (op : Nat) (key : List Nat) (vbs o c : Nat)
    (extra value : List Nat) (hk : key.length < 65536) (he : extra.length < 256)
    (hb : extra.length + key.length + value.length < 4294967296) :
    hdr_body_length (wire_bytes r op key vbs o c extra value)
        = hdr_extra_length (wire_bytes r op key vbs o c extra value)
          + hdr_key_length (wire_bytes r op key vbs o c extra value) + value.length
    ∧ (wire_bytes r op key vbs o c extra value).length
        = 24 + hdr_body_length (wire_bytes r op key vbs o c extra value) := by
  rw [hdr_body_length_wire r op key vbs o c extra value hb,
    hdr_extra_length_wire r op key vbs o c extra value he,
    hdr_key_length_wire r op key vbs o c extra value hk, wire_length]
  exact ⟨rfl, by omega⟩

theorem is_msg_complete_some {b : List Nat} {x : Bool} {y z : Nat}
    (h : is_msg_complete b = some (x, y, z)) :
    y = hdr_body_length b ∧ x = (hdr_magic b == 0x80) ∧ z = hdr_op_code b
      ∧ 24 + hdr_body_length b ≤ b.length := by
  unfold is_msg_complete at h
  split_ifs at h with h1 h2
  · rw [Option.some.injEq, Prod.mk.injEq, Prod.mk.injEq] at h
    exact ⟨h.2.1.symm, h.1.symm, h.2.2.symm, h2⟩

theorem map_mod65536_eq (l : List Nat) (h : ∀ v ∈ l, v < 65536) :
    l.map (· % 65536) = l := by
  induction l with
  | nil => rfl
  | cons x xs ih =>
    rw [List.map_cons, Nat.mod_eq_of_lt (h x (by simp)),
      ih (fun v hv => h v (by simp [hv]))]

theorem htonl_bytes (b3 b2 b1 b0 : Nat) (h3 : b3 < 256) (h2 : b2 < 256) (h1 : b1 < 256)
    (h0 : b0 < 256) :
    Utils.htonl (b3 * 16777216 + b2 * 65536 + b1 * 256 + b0)
      = b0 * 16777216 + b1 * 65536 + b2 * 256 + b3 := by
  unfold Utils.htonl; omega

theorem htonl_htonl (x : Nat) (hx : x < 4294967296) :
    Utils.htonl (Utils.htonl x) = x := by
  have hx4 : x = x / 16777216 % 256 * 16777216 + x / 65536 % 256 * 65536
      + x / 256 % 256 * 256 + x % 256 := by omega
  rw [hx4, htonl_bytes _ _ _ _ (by omega) (by omega) (by omega) (by omega),
    htonl_bytes _ _ _ _ (by omega) (by omega) (by omega) (by omega)]

theorem htonl_lt (x : Nat) : Utils.htonl x < 4294967296 := by
  unfold Utils.htonl; omega

/-- C6: for every 64-bit value v, `network_to_host(host_to_network(v)) == v`,
and the little-endian 64-bit conversion swaps the two 32-bit halves after
byte-swapping each, so `host_to_network(0x0102030405060708)` is
`0x0807060504030201`. -/
theorem byte_order_involution_64 :
    (∀ v : Nat, v < 18446744073709551616 →
        Utils.network_to_host64 (Utils.host_to_network64 v) = v)
    ∧ Utils.host_to_network64 0x0102030405060708 = 0x0807060504030201 := by
  constructor
  · intro v hv
    show Utils.host_to_network64 (Utils.host_to_network64 v) = v
    have hdef : ∀ w : Nat, Utils.host_to_network64 w
        = Utils.htonl (w / 4294967296 % 4294967296)
          + Utils.htonl (w % 4294967296) * 4294967296 := fun w => rfl
    have hA := htonl_lt (v / 4294967296 % 4294967296)
    have hB := htonl_lt (v % 4294967296)
    rw [hdef, hdef]
    set A := Utils.htonl (v / 4294967296 % 4294967296) with hAdef
    set B := Utils.htonl (v % 4294967296) with hBdef
    have e1 : (A + B * 4294967296) / 4294967296 % 4294967296 = B := by omega
    have e2 : (A + B * 4294967296) % 4294967296 = A := by omega
    rw [e1, e2, hAdef, hBdef, htonl_htonl (v % 4294967296) (by omega),
      htonl_htonl (v / 4294967296 % 4294967296) (by omega)]
    omega
  · rfl

/-- C6 witness: the involution applied at the concrete 64-bit value
0x1122334455667788. -/
theorem byte_order_involution_64_witness :
    1234605616436508552 < 18446744073709551616
    ∧ Utils.network_to_host64 (Utils.host_to_network64 1234605616436508552)
        = 1234605616436508552 :=
  ⟨by omega, byte_order_involution_64.1 1234605616436508552 (by omega)⟩

/-- C7: a GetReq whose op_code is GET (0x00) reports
`response_needs_key() == false`; one whose op_code is GETK (0x0c) reports
`response_needs_key() == true`. -/
theorem getreq_response_needs_key :
    ∀ (key : List Nat) (vb o c : Nat),
      (Msg.getReq OpCode.GET key vb o c).response_needs_key = false
      ∧ (Msg.getReq OpCode.GETK key vb o c).response_needs_key = true :=
  fun _ _ _ _ => ⟨rfl, rfl⟩

/-- C9: the programmatic (key, opaque) constructors of GetReq and DeleteReq
always produce vbucket 0 and cas 0, and the programmatic SetReq/AddReq
constructors always produce cas 0 (they expose no parameter for those
fields). -/
theorem programmatic_ctor_defaults :
    (∀ (key : List Nat) (o : Nat),
        (GetReq.of_key_opq key o).vbucket = 0 ∧ (GetReq.of_key_opq key o).cas = 0
        ∧ (DeleteReq.of_key_opq key o).vbucket = 0 ∧ (DeleteReq.of_key_opq key o).cas = 0)
    ∧ (∀ (key : List Nat) (vb : Nat) (value : List Nat) (f e : Nat),
        (SetReq.of_fields key vb value f e).cas = 0
        ∧ (AddReq.of_fields key vb value f e).cas = 0) :=
  ⟨fun _ _ => ⟨rfl, rfl, rfl, rfl⟩, fun _ _ _ _ _ => ⟨rfl, rfl⟩⟩

/-- C10: the programmatic DeleteRsp and SetAddReplaceRsp constructors take
their status through an 8-bit parameter, so the stored 16-bit result code
is the supplied status truncated modulo 256 — in particular always below
256. -/
theorem rsp_status_truncated :
    ∀ (s o cmd c : Nat),
      (DeleteRsp.of_status_opq s o).result_code = s % 256
      ∧ (DeleteRsp.of_status_opq s o).result_code < 256
      ∧ (SetAddReplaceRsp.of_fields cmd s o c).result_code = s % 256
      ∧ (SetAddReplaceRsp.of_fields cmd s o c).result_code < 256 :=
  fun s _ _ _ => ⟨rfl, Nat.mod_lt s (by omega), rfl, Nat.mod_lt s (by omega)⟩

/-- C1 (amended): for every well-formed GetReq, GetRsp, DeleteReq, SetReq /
AddReq / ReplaceReq, and status-only response (DeleteRsp /
SetAddReplaceRsp), parsing the bytes of `to_wire()` reconstructs a message
with identical stored fields, hence identical observable accessors.  A
VersionRsp is reconstructed (as the generic status-only response) with
every observable accessor equal.  A TapMutateReq round-trips its header
accessors only: it is reconstructed with an empty value, because its class
overrides neither `generate_extra` nor `generate_value`, so `to_wire()`
emits no payload segments. -/
theorem roundtrip_parse_serialize :
    (∀ (op : Nat) (key : List Nat) (vb o c : Nat), (Msg.getReq op key vb o c).Wf →
        from_wire (Msg.getReq op key vb o c).to_wire
          = (.found (.getReq op key vb o c), []))
    ∧ (∀ (op s o c : Nat) (v : List Nat) (f : Nat) (k : List Nat),
        (Msg.getRsp op s o c v f k).Wf →
        from_wire (Msg.getRsp op s o c v f k).to_wire
          = (.found (.getRsp op s o c v f k), []))
    ∧ (∀ (key : List Nat) (vb o c : Nat), (Msg.deleteReq key vb o c).Wf →
        from_wire (Msg.deleteReq key vb o c).to_wire
          = (.found (.deleteReq key vb o c), []))
    ∧ (∀ (op : Nat) (key : List Nat) (vb : Nat) (v : List Nat) (o c f e : Nat),
        (Msg.setReq op key vb v o c f e).Wf →
        from_wire (Msg.setReq op key vb v o c f e).to_wire
          = (.found (.setReq op key vb v o c f e), []))
    ∧ (∀ (op : Nat) (key : List Nat) (s o c : Nat), (Msg.statusRsp op key s o c).Wf →
        from_wire (Msg.statusRsp op key s o c).to_wire
          = (.found (.statusRsp op key s o c), []))
    ∧ (∀ (s o : Nat) (ver : List Nat), (Msg.versionRsp s o ver).Wf →
        from_wire (Msg.versionRsp s o ver).to_wire
          = (.found (.statusRsp OpCode.VERSION [] s o 0), [])
        ∧ (Msg.statusRsp OpCode.VERSION [] s o 0).op_code = (Msg.versionRsp s o ver).op_code
        ∧ (Msg.statusRsp OpCode.VERSION [] s o 0).key = (Msg.versionRsp s o ver).key
        ∧ (Msg.statusRsp OpCode.VERSION [] s o 0).opq = (Msg.versionRsp s o ver).opq
        ∧ (Msg.statusRsp OpCode.VERSION [] s o 0).cas = (Msg.versionRsp s o ver).cas
        ∧ (Msg.statusRsp OpCode.VERSION [] s o 0).result_code
            = (Msg.versionRsp s o ver).result_code
        ∧ (Msg.statusRsp OpCode.VERSION [] s o 0).is_response
            = (Msg.versionRsp s o ver).is_response)
    ∧ (∀ (k : List Nat) (vb o c : Nat) (v : List Nat) (f e : Nat),
        (Msg.tapMutateReq k vb o c v f e).Wf →
        ∃ f2 e2, from_wire (Msg.tapMutateReq k vb o c v f e).to_wire
          = (.found (.tapMutateReq k vb o c [] f2 e2), [])) :=
  ⟨rt_getReq, rt_getRsp, rt_deleteReq, rt_setReq, rt_statusRsp,
    fun s o ver h => ⟨rt_versionRsp s o ver h, rfl, rfl, rfl, rfl, rfl, rfl⟩,
    rt_tapMutateReq⟩

/-- C1 witness: the round trip evaluated on a concrete GetReq and a
concrete SetReq. -/
theorem roundtrip_parse_serialize_witness :
    from_wire (Msg.getReq 0 [102, 111, 111] 3 42 7).to_wire
      = (.found (.getReq 0 [102, 111, 111] 3 42 7), [])
    ∧ from_wire (Msg.setReq 1 [107] 3 [118, 118] 5 0 9 8).to_wire
      = (.found (.setReq 1 [107] 3 [118, 118] 5 0 9 8), []) :=
  ⟨roundtrip_parse_serialize.1 0 [102, 111, 111] 3 42 7 (by decide),
    roundtrip_parse_serialize.2.2.2.1 1 [107] 3 [118, 118] 5 0 9 8 (by decide)⟩

/-- C1 counterexample: a well-formed TapMutateReq with value 0x62, flags 3
and expiry 4 serializes, via `to_wire()`, to a buffer with no extra and no
value segment; parsing that buffer back yields a TapMutateReq whose value
accessor returns empty (and whose flags/expiry are read from bytes that
are not an extra segment), so the payload accessors of the reconstruction
differ from the original's. -/
theorem roundtrip_tapmutate_counterexample :
    (Msg.tapMutateReq [107] 0 5 0 [98] 3 4).Wf
    ∧ (Msg.tapMutateReq [107] 0 5 0 [98] 3 4).value = [98]
    ∧ from_wire (Msg.tapMutateReq [107] 0 5 0 [98] 3 4).to_wire
        = (.found (.tapMutateReq [107] 0 5 0 [] 1795162112 0), [])
    ∧ (Msg.tapMutateReq [107] 0 5 0 [] 1795162112 0).value = []
    ∧ (Msg.tapMutateReq [107] 0 5 0 [] 1795162112 0).flags
        ≠ (Msg.tapMutateReq [107] 0 5 0 [98] 3 4).flags := by
  refine ⟨by decide, rfl, by decide, rfl, by decide⟩

/-- C2: in every serialized well-formed message the header's body_length
field equals extra_length + key_length + the value segment's length, and
the total serialized length is 24 + body_length. -/
theorem header_arithmetic_to_wire (m : Msg) (h : m.Wf) :
    hdr_body_length m.to_wire
        = hdr_extra_length m.to_wire + hdr_key_length m.to_wire + m.generate_value.length
    ∧ m.to_wire.length = 24 + hdr_body_length m.to_wire := by
  cases m with
  | getReq op key vb o c =>
    obtain ⟨hop, hk, hv, ho, hc⟩ := h
    exact c2_generic true op key vb o c [] [] hk (by simp) (by simp; omega)
  | getRsp op s o c v f k =>
    obtain ⟨hop, hs, ho, hc, hk, hf, hbv⟩ := h
    exact c2_generic false op k s o c (be32 f) v hk (by simp [be32]) (by simp [be32]; omega)
  | deleteReq key vb o c =>
    obtain ⟨hk, hv, ho, hc⟩ := h
    exact c2_generic true OpCode.DELETE key vb o c [] [] hk (by simp) (by simp; omega)
  | setReq op key vb v o c f e =>
    obtain ⟨hop, hk, hv, ho, hc, hf, hex, hbv⟩ := h
    exact c2_generic true op key vb o c (be32 f ++ be32 e) v hk (by simp [be32])
      (by simp [be32]; omega)
  | statusRsp op key s o c =>
    obtain ⟨hop, hk, hs, ho, hc⟩ := h
    exact c2_generic false op key s o c [] [] hk (by simp) (by simp; omega)
  | versionReq key vb o c =>
    obtain ⟨hk, hv, ho, hc⟩ := h
    exact c2_generic true OpCode.VERSION key vb o c [] [] hk (by simp) (by simp; omega)
  | versionRsp s o ver =>
    obtain ⟨hs, ho, hver⟩ := h
    exact c2_generic false OpCode.VERSION [] s o 0 [] ver (by simp) (by simp)
      (by simp; omega)
  | tapConnectReq bs =>
    obtain ⟨hb, hlen⟩ := h
    exact c2_generic true OpCode.TAP_CONNECT [] 0 0 0
      (be32 (if bs.isEmpty then 0 else 4)) (bs.flatMap be16) (by simp) (by simp [be32])
      (by simp only [be32, length_flatMap_be16, List.length_cons, List.length_nil]; omega)
  | tapMutateReq k vb o c v f e =>
    obtain ⟨hk, hv, ho, hc⟩ := h
    exact c2_generic true OpCode.TAP_MUTATE k vb o c [] [] hk (by simp) (by simp; omega)
  | setVBucketReq vb s =>
    obtain ⟨hv, hs⟩ := h
    exact c2_generic true OpCode.SET_VBUCKET [] vb 0 0 [s] [] (by simp) (by simp) (by simp)

/-- C2 witness: the header arithmetic evaluated on a concrete GetRsp. -/
theorem header_arithmetic_to_wire_witness :
    hdr_body_length (Msg.getRsp 0 1 42 99 [118] 9 [107]).to_wire
        = hdr_extra_length (Msg.getRsp 0 1 42 99 [118] 9 [107]).to_wire
          + hdr_key_length (Msg.getRsp 0 1 42 99 [118] 9 [107]).to_wire
          + (Msg.getRsp 0 1 42 99 [118] 9 [107]).generate_value.length
    ∧ (Msg.getRsp 0 1 42 99 [118] 9 [107]).to_wire.length
        = 24 + hdr_body_length (Msg.getRsp 0 1 42 99 [118] 9 [107]).to_wire :=
  header_arithmetic_to_wire (Msg.getRsp 0 1 42 99 [118] 9 [107]) (by decide)

/-- C3: `is_msg_complete` reports incomplete on any buffer of fewer than 24
bytes and on a buffer one byte short of 24 + its declared body_length; on a
buffer of at least 24 + body_length bytes it reports complete, with the
direction taken from the magic byte, the op_code from the header, and the
body_length assembled from network order. -/
theorem partial_frame_detection :
    (∀ b : List Nat, b.length < 24 → is_msg_complete b = none)
    ∧ (∀ b : List Nat, b.length + 1 = 24 + hdr_body_length b → is_msg_complete b = none)
    ∧ (∀ b : List Nat, 24 + hdr_body_length b ≤ b.length →
        is_msg_complete b = some (hdr_magic b == 0x80, hdr_body_length b, hdr_op_code b)) := by
  refine ⟨?_, ?_, ?_⟩
  · intro b h
    unfold is_msg_complete
    rw [if_pos h]
  · intro b h
    unfold is_msg_complete
    by_cases h24 : b.length < 24
    · rw [if_pos h24]
    · rw [if_neg h24, if_neg (by omega)]
  · intro b h
    unfold is_msg_complete
    rw [if_neg (by omega), if_pos h]

/-- C3 witness: a 1-byte buffer is incomplete; a 24-byte buffer declaring
body_length 1 is incomplete (one byte short); a 24-byte zeroed request
buffer (body_length 0) is complete, reporting (request, 0, op GET). -/
theorem partial_frame_detection_witness :
    is_msg_complete [128] = none
    ∧ is_msg_complete
        [128, 0, 0, 0, 0, 0, 0, 0, 0, 0, 0, 1, 0, 0, 0, 0, 0, 0, 0, 0, 0, 0, 0, 0] = none
    ∧ is_msg_complete
        [128, 0, 0, 0, 0, 0, 0, 0, 0, 0, 0, 0, 0, 0, 0, 0, 0, 0, 0, 0, 0, 0, 0, 0]
      = some (true, 0, 0) :=
  ⟨partial_frame_detection.1 [128] (by decide),
    partial_frame_detection.2.1
      [128, 0, 0, 0, 0, 0, 0, 0, 0, 0, 0, 1, 0, 0, 0, 0, 0, 0, 0, 0, 0, 0, 0, 0] (by decide),
    partial_frame_detection.2.2
      [128, 0, 0, 0, 0, 0, 0, 0, 0, 0, 0, 0, 0, 0, 0, 0, 0, 0, 0, 0, 0, 0, 0, 0] (by decide)⟩

/-- C4: when a buffer holds exactly one complete message (its length is
24 + its declared body_length) followed by trailing bytes, a successful
`from_wire` leaves exactly the trailing bytes; and on any buffer without a
complete message `from_wire` returns not-found with the buffer
unmodified. -/
theorem buffer_consumption_from_wire :
    (∀ (msg rest : List Nat) (m : Msg), msg.length = 24 + hdr_body_length msg →
        (from_wire (msg ++ rest)).1 = .found m → (from_wire (msg ++ rest)).2 = rest)
    ∧ (∀ b : List Nat, is_msg_complete b = none → from_wire b = (.not_found, b)) := by
  constructor
  · intro msg rest m hlen hfound
    have hbl : hdr_body_length (msg ++ rest) = hdr_body_length msg := by
      unfold hdr_body_length
      rw [List.getD_append _ _ _ _ (by omega), List.getD_append _ _ _ _ (by omega),
        List.getD_append _ _ _ _ (by omega), List.getD_append _ _ _ _ (by omega)]
    cases hC : is_msg_complete (msg ++ rest) with
    | none => simp [from_wire, hC] at hfound
    | some t =>
      obtain ⟨r0, bl0, op0⟩ := t
      obtain ⟨hy, hx, hz, hle⟩ := is_msg_complete_some hC
      cases hD : dispatch r0 op0 (msg ++ rest) with
      | none => simp [from_wire, hC, hD] at hfound
      | some m2 =>
        have h2 : (from_wire (msg ++ rest)).2 = (msg ++ rest).drop (24 + bl0) := by
          simp [from_wire, hC, hD]
        rw [h2, hy, hbl, ← hlen]
        exact List.drop_left msg rest
  · intro b h
    simp [from_wire, h]

/-- C4 witness: a concrete 25-byte GetReq message followed by two trailing
bytes; after parsing, exactly the two trailing bytes remain. -/
theorem buffer_consumption_from_wire_witness :
    (Msg.getReq 0 [102] 3 42 7).to_wire.length
        = 24 + hdr_body_length (Msg.getReq 0 [102] 3 42 7).to_wire
    ∧ (from_wire ((Msg.getReq 0 [102] 3 42 7).to_wire ++ [9, 9])).1
        = .found (.getReq 0 [102] 3 42 7)
    ∧ (from_wire ((Msg.getReq 0 [102] 3 42 7).to_wire ++ [9, 9])).2 = [9, 9] :=
  ⟨by decide, by decide,
    buffer_consumption_from_wire.1 (Msg.getReq 0 [102] 3 42 7).to_wire [9, 9]
      (.getReq 0 [102] 3 42 7) (by decide) (by decide)⟩

/-- C5: a complete message whose (direction, op_code) pair has no entry in
the factory dispatch table makes `from_wire` report the
unrecognized-message error, leaving the buffer unmodified. -/
theorem unrecognized_dispatch_reported :
    ∀ (b : List Nat) (r : Bool) (bl op : Nat),
      is_msg_complete b = some (r, bl, op) → dispatch r op b = none →
      from_wire b = (.unrecognized, b) := by
  intro b r bl op h1 h2
  simp [from_wire, h1, h2]

/-- C5 witness: a complete 24-byte QUIT request (op 0x07), for which no
concrete type is registered in either direction. -/
theorem unrecognized_dispatch_reported_witness :
    is_msg_complete
        [128, 7, 0, 0, 0, 0, 0, 0, 0, 0, 0, 0, 0, 0, 0, 0, 0, 0, 0, 0, 0, 0, 0, 0]
      = some (true, 0, 7)
    ∧ dispatch true 7
        [128, 7, 0, 0, 0, 0, 0, 0, 0, 0, 0, 0, 0, 0, 0, 0, 0, 0, 0, 0, 0, 0, 0, 0] = none
    ∧ from_wire [128, 7, 0, 0, 0, 0, 0, 0, 0, 0, 0, 0, 0, 0, 0, 0, 0, 0, 0, 0, 0, 0, 0, 0]
      = (.unrecognized,
          [128, 7, 0, 0, 0, 0, 0, 0, 0, 0, 0, 0, 0, 0, 0, 0, 0, 0, 0, 0, 0, 0, 0, 0]) :=
  ⟨by decide, by decide,
    unrecognized_dispatch_reported
      [128, 7, 0, 0, 0, 0, 0, 0, 0, 0, 0, 0, 0, 0, 0, 0, 0, 0, 0, 0, 0, 0, 0, 0]
      true 0 7 (by decide) (by decide)⟩

/-- C8: a TapConnectReq built from a vbucket list serializes its value
segment as the list's elements, each as a 2-byte network-order integer, in
exactly list order (the value segment starts at offset 28 = 24-byte header
plus the 4-byte flag-word extra); an empty list produces no value segment
at all (total length exactly 28). -/
theorem tapconnect_value_segment_order :
    ∀ L : List Nat, (∀ v ∈ L, v < 65536) →
      (TapConnectReq.of_buckets L).to_wire.drop 28 = L.flatMap be16
      ∧ (TapConnectReq.of_buckets L).to_wire.length = 28 + 2 * L.length
      ∧ (L = [] → (TapConnectReq.of_buckets L).to_wire.length = 28) := by
  intro L hL
  have hW : (TapConnectReq.of_buckets L).to_wire
      = wire_bytes true OpCode.TAP_CONNECT [] 0 0 0
          (be32 (if (L.map (· % 65536)).isEmpty then 0 else 4))
          ((L.map (· % 65536)).flatMap be16) := rfl
  rw [hW, map_mod65536_eq L hL]
  refine ⟨?_, ?_, ?_⟩
  · rw [show (28 : Nat) = 24 + 4 from rfl, wire_drop]
    simp [be32]
  · rw [wire_length]
    simp only [be32, length_flatMap_be16, List.length_cons, List.length_nil]
    omega
  · intro h
    subst h
    rfl

/-- C8 witness: the vbucket list [5, 9, 2] serializes as the three 16-bit
network-order integers in that order. -/
theorem tapconnect_value_segment_order_witness :
    (TapConnectReq.of_buckets [5, 9, 2]).to_wire.drop 28 = [0, 5, 0, 9, 0, 2]
    ∧ (TapConnectReq.of_buckets [5, 9, 2]).to_wire.length = 34 := by
  have h := tapconnect_value_segment_order [5, 9, 2] (by decide)
  exact ⟨h.1.trans (by decide), h.2.1.trans (by decide)⟩

end Memcached
